import Mathlib

/-!
Verification development for the poptracker link-tracking server
(source: src/server.js, with src/unnamed/part_000 an earlier revision of
the same file; the handlers relevant here are identical in both).

Shallow embedding conventions:
- SQLite rows become Lean structures; the three tables become lists inside
  a Store record. An SQL INSERT appends at the end of the list; an SQL
  UPDATE ... WHERE maps over the list, rewriting every row matching the
  WHERE clause; a db.get SELECT ... WHERE returns the chosen matching row.
- Timestamps (CURRENT_TIMESTAMP) are abstract Nat instants passed into each
  handler as a parameter; DATE(...) truncation is dayOf (division by 86400).
- JSON request bodies are records of Option String fields (absent = none);
  JS falsiness of a field value (undefined, null, empty string) is the
  truthy test below. JSON scalar values are modelled as strings.
- A fallible store write is modelled by an explicit failure flag parameter
  on the handler, mirroring the err branch of the node-sqlite3 callback.
- Each handler returns ((status, payload), store).
-/

/-- Row of the links table. -/
structure Link where
  tracking_id : String
  contact_id : String
  contact_email : Option String
  agent_type : String
  original_url : String
  created_at : Nat
  clicked : Bool
  clicked_at : Option Nat
  converted : Bool
  converted_at : Option Nat
  deriving Repr, DecidableEq

/-- Row of the click_events table. -/
structure ClickEvent where
  tracking_id : String
  clicked_at : Nat
  ip_address : Option String
  user_agent : Option String
  deriving Repr, DecidableEq

/-- Row of the conversions table. -/
structure Conversion where
  contact_id : String
  tracking_id : Option String
  conversion_type : String
  converted_at : Nat
  metadata : String
  deriving Repr, DecidableEq

/-- The whole SQLite database. -/
structure Store where
  links : List Link
  click_events : List ClickEvent
  conversions : List Conversion
  deriving Repr, DecidableEq

/-- JS truthiness of an optional JSON string field: undefined, null and the
empty string are falsy (the only falsy values that can appear in our model). -/
def truthy : Option String → Bool
  | none => false
  | some s => s != ""

/-! ## POST /api/register-link (server.js lines 98-125) -/

/-- Request body of POST /api/register-link. -/
structure RegisterBody where
  contactId : Option String := none
  contactEmail : Option String := none
  agentType : Option String := none
  originalUrl : Option String := none
  deriving Repr, DecidableEq

/-- Success payload of POST /api/register-link. -/
structure RegisterResp where
  success : Bool
  trackingId : String
  trackedUrl : String
  originalUrl : String
  deriving Repr, DecidableEq

/-- uuidv4().substring(0, 8): the first 8 characters of the generated uuid
(JS substring clamps when the string is shorter). -/
def genTrackingId (uuid : String) : String :=
  ⟨uuid.data.take 8⟩

/-- Handler of POST /api/register-link. The fresh uuid, the request scheme
and host, the current timestamp, and whether the INSERT fails are parameters.
Validation: if (!contactId || !agentType || !originalUrl) return 400. -/
def registerLink (st : Store) (b : RegisterBody) (uuid proto host : String)
    (now : Nat) (insertFails : Bool) : (Nat × Option RegisterResp) × Store :=
  if truthy b.contactId = false || truthy b.agentType = false
      || truthy b.originalUrl = false then
    ((400, none), st)
  else if insertFails then
    ((500, none), st)
  else
    let tid := genTrackingId uuid
    let link : Link :=
      { tracking_id := tid
        contact_id := b.contactId.getD ""
        contact_email := b.contactEmail
        agent_type := b.agentType.getD ""
        original_url := b.originalUrl.getD ""
        created_at := now
        clicked := false
        clicked_at := none
        converted := false
        converted_at := none }
    ((200, some { success := true, trackingId := tid
                  trackedUrl := proto ++ "://" ++ host ++ "/t/" ++ tid
                  originalUrl := b.originalUrl.getD "" }),
     { st with links := st.links ++ [link] })

/-! ## GET /t/:trackingId (server.js lines 128-161) -/

/-- Handler of GET /t/:trackingId. Payload of the response: the plain-text
body on 404, the redirect target URL on 302. The click-event INSERT and the
first-click UPDATE are fire-and-forget in the source (no error callback), so
they are modelled as always applied. -/
def handleClick (st : Store) (tid : String) (ip ua : Option String)
    (now : Nat) : (Nat × Option String) × Store :=
  match st.links.find? (fun l => l.tracking_id == tid) with
  | none => ((404, some "Link not found"), st)
  | some row =>
    let ev : ClickEvent :=
      { tracking_id := tid, clicked_at := now, ip_address := ip, user_agent := ua }
    let links1 :=
      if row.clicked = false then
        st.links.map (fun l =>
          if l.tracking_id == tid then
            { l with clicked := true, clicked_at := some now }
          else l)
      else st.links
    ((302, some row.original_url),
     { st with links := links1, click_events := st.click_events ++ [ev] })

/-! ## POST /webhook/appointment (server.js lines 164-208) -/

/-- Request body of POST /webhook/appointment. The source destructures only
contactId and appointmentId; any other payload fields (a contact_id spelling,
arbitrary extras) are carried here so that claims about them can be stated,
but the handler never reads them. -/
structure WebhookBody where
  contactId : Option String := none
  appointmentId : Option String := none
  contact_id : Option String := none
  extraFields : List (String × String) := []
  deriving Repr, DecidableEq

/-- JSON.stringify({ appointmentId }): a key is dropped entirely when its
value is undefined. -/
def jsonStringifyAppointment : Option String → String
  | none => "\x7b\x7d"
  | some a => "\x7b\"appointmentId\":\"" ++ a ++ "\"\x7d"

/-- Sort key used for ORDER BY clicked_at DESC: SQLite sorts NULL below every
value, so none maps strictly below every some. -/
def caKey : Option Nat → Nat
  | none => 0
  | some n => n + 1

/-- Keeps the better of two candidate rows for ORDER BY clicked_at DESC
LIMIT 1 (the later clicked_at wins; on a tie the earlier candidate is kept,
one resolution of the ordering SQLite leaves unspecified). -/
def betterClick (a b : Link) : Link :=
  if caKey a.clicked_at < caKey b.clicked_at then b else a

/-- SELECT tracking_id FROM links WHERE contact_id = ? AND clicked = 1
ORDER BY clicked_at DESC LIMIT 1, as a row choice over the table. -/
def mostRecentClicked (ls : List Link) : Option Link :=
  match ls with
  | [] => none
  | x :: xs => some (xs.foldl betterClick x)

/-- The clicked links of a contact, in table order. -/
def clickedLinksOf (st : Store) (cid : String) : List Link :=
  st.links.filter (fun l => l.contact_id == cid && l.clicked)

/-- The tracking id the webhook attributes to a contact:
const trackingId = row ? row.tracking_id : null. -/
def attributedTracking (st : Store) (cid : String) : Option String :=
  (mostRecentClicked (clickedLinksOf st cid)).map (fun l => l.tracking_id)

/-- Handler of POST /webhook/appointment. getFails injects an error into the
attribution SELECT, insertFails into the conversion INSERT (each surfaces as
a 500 in the source). Payload of the 200 response: the echoed trackingId
(itself nullable). -/
def webhookAppointment (st : Store) (b : WebhookBody) (now : Nat)
    (getFails insertFails : Bool) : (Nat × Option (Option String)) × Store :=
  if truthy b.contactId = false then
    ((400, none), st)
  else
    let cid := b.contactId.getD ""
    if getFails then
      ((500, none), st)
    else
      let trackingId := attributedTracking st cid
      if insertFails then
        ((500, none), st)
      else
        let conv : Conversion :=
          { contact_id := cid
            tracking_id := trackingId
            conversion_type := "appointment"
            converted_at := now
            metadata := jsonStringifyAppointment b.appointmentId }
        let links1 :=
          match trackingId with
          | some t =>
            st.links.map (fun l =>
              if l.tracking_id == t then
                { l with converted := true, converted_at := some now }
              else l)
          | none => st.links
        ((200, some trackingId),
         { st with links := links1, conversions := st.conversions ++ [conv] })

/-! ## GET /api/stats (server.js lines 211-308) -/

/-- The four date filters the switch on period can build. -/
inductive DateFilter where
  | today
  | week
  | month
  | all
  deriving Repr, DecidableEq

/-- const \x7b period = "today", agentType \x7d = req.query, then the switch:
an absent period defaults to "today" before the switch runs, while a present
but unrecognized value reaches the default case, the match-all 1=1 filter. -/
def periodFilterOf : Option String → DateFilter
  | none => .today
  | some "today" => .today
  | some "week" => .week
  | some "month" => .month
  | some _ => .all

/-- DATE(timestamp): calendar-day truncation of an instant. -/
def dayOf (t : Nat) : Nat := t / 86400

/-- Whether a link passes the date part of the WHERE clause, given the
current day. today: DATE(created_at) = DATE(now); week and month compare
with DATE(now) minus 7 and 30 days. -/
def inPeriod (f : DateFilter) (nowDay : Nat) (l : Link) : Bool :=
  match f with
  | .today => dayOf l.created_at == nowDay
  | .week => decide (nowDay - 7 ≤ dayOf l.created_at)
  | .month => decide (nowDay - 30 ≤ dayOf l.created_at)
  | .all => true

/-- Query string of GET /api/stats. -/
structure StatsQuery where
  period : Option String := none
  agentType : Option String := none
  deriving Repr, DecidableEq

/-- The agent-type part of the WHERE clause: appended only when
agentType is truthy and not the literal "all". -/
def agentMatches (q : StatsQuery) (l : Link) : Bool :=
  match q.agentType with
  | none => true
  | some a => if a != "" && a != "all" then l.agent_type == a else true

/-- The full WHERE clause of the overview and recentActivity queries:
date filter plus (optionally) the agent-type filter. -/
def effectiveFilter (q : StatsQuery) (nowDay : Nat) (l : Link) : Bool :=
  inPeriod (periodFilterOf q.period) nowDay l && agentMatches q l

/-- ROUND(x, 1): one decimal, half away from zero (arguments here are
nonnegative, where Mathlib round, half up, agrees with SQLite ROUND). -/
def round1 (x : ℚ) : ℚ := (round (10 * x) : ℤ) / 10

/-- The overview row: COUNT, the two SUMs and the two rates. SUM and AVG of
an empty set are NULL in SQLite, hence the Option results. The conversion
rate averages converted over the clicked rows only (the CASE WHEN sends
unclicked rows to NULL, which AVG skips). -/
structure Overview where
  total_links : Nat
  total_clicks : Option Nat
  total_conversions : Option Nat
  click_rate : Option ℚ
  conversion_rate : Option ℚ
  deriving Repr, DecidableEq

/-- Builds the overview aggregate over the rows passing the WHERE clause. -/
def mkOverview (ls : List Link) : Overview :=
  let n := ls.length
  let c := (ls.filter (fun l => l.clicked)).length
  let v := (ls.filter (fun l => l.converted)).length
  let cv := (ls.filter (fun l => l.clicked && l.converted)).length
  { total_links := n
    total_clicks := if n = 0 then none else some c
    total_conversions := if n = 0 then none else some v
    click_rate := if n = 0 then none else some (round1 (100 * c / n))
    conversion_rate := if c = 0 then none else some (round1 (100 * cv / c)) }

/-- One row of the byAgent GROUP BY result. The group is never empty, so
only the conversion rate can be NULL. -/
structure AgentRow where
  agent_type : String
  links_sent : Nat
  clicks : Nat
  conversions : Nat
  click_rate : ℚ
  conversion_rate : Option ℚ
  deriving Repr, DecidableEq

/-- Aggregates of one agent-type group. -/
def mkAgentRow (t : String) (ls : List Link) : AgentRow :=
  let grp := ls.filter (fun l => l.agent_type == t)
  let n := grp.length
  let c := (grp.filter (fun l => l.clicked)).length
  let v := (grp.filter (fun l => l.converted)).length
  let cv := (grp.filter (fun l => l.clicked && l.converted)).length
  { agent_type := t
    links_sent := n
    clicks := c
    conversions := v
    click_rate := round1 (100 * c / n)
    conversion_rate := if c = 0 then none else some (round1 (100 * cv / c)) }

/-- GROUP BY agent_type over the filtered rows: one row per distinct agent
type (enumeration order before the ORDER BY is unspecified in SQL; the model
uses dedup order). -/
def byAgentRows (ls : List Link) : List AgentRow :=
  ((ls.map (fun l => l.agent_type)).dedup).map (fun t => mkAgentRow t ls)

/-- agent_type LIKE "support_%" of the ORDER BY CASE. SQLite LIKE is
case-insensitive on ASCII, % matches any run, and the underscore is a
single-character wildcard: the pattern matches exactly the strings whose
lowercasing starts with support followed by at least one more character. -/
def likeSupportPct (s : String) : Bool :=
  ((s.data.take 7).map Char.toLower == "support".data) && decide (8 ≤ s.data.length)

/-- The CASE expression of the ORDER BY: tier 1 for LIKE "support_%",
tier 2 for the literal post_call, tier 3 otherwise. -/
def tierOf (t : String) : Nat :=
  if likeSupportPct t then 1 else if t = "post_call" then 2 else 3

/-- ORDER BY the CASE tier: a three-valued sort realized as bucket
concatenation (within a tier SQLite leaves the order unspecified; the
model keeps the group order). -/
def orderByTier (rs : List AgentRow) : List AgentRow :=
  rs.filter (fun r => tierOf r.agent_type == 1)
    ++ rs.filter (fun r => tierOf r.agent_type == 2)
    ++ rs.filter (fun r => tierOf r.agent_type == 3)

/-- The reduced field projection of the recentActivity query. -/
structure RecentRow where
  tracking_id : String
  agent_type : String
  contact_email : Option String
  created_at : Nat
  clicked : Bool
  clicked_at : Option Nat
  converted : Bool
  deriving Repr, DecidableEq

/-- Projects a links row to the recentActivity columns. -/
def projRecent (l : Link) : RecentRow :=
  { tracking_id := l.tracking_id
    agent_type := l.agent_type
    contact_email := l.contact_email
    created_at := l.created_at
    clicked := l.clicked
    clicked_at := l.clicked_at
    converted := l.converted }

/-- Inserts a row into a list already arranged newest-first by created_at. -/
def insertDesc (l : Link) : List Link → List Link
  | [] => [l]
  | x :: xs =>
    if x.created_at < l.created_at then l :: x :: xs else x :: insertDesc l xs

/-- ORDER BY created_at DESC (tie order unspecified in SQL; the model uses
insertion sort). -/
def sortByCreatedDesc : List Link → List Link
  | [] => []
  | x :: xs => insertDesc x (sortByCreatedDesc xs)

/-- The JSON body of the GET /api/stats 200 response. period echoes the
defaulted query value. -/
structure StatsResult where
  overview : Overview
  byAgent : List AgentRow
  recentActivity : List RecentRow
  period : String
  deriving Repr, DecidableEq

/-- Handler of GET /api/stats (success path; each of the three reads can
also fail with a 500 in the source, which no claim here concerns). The
byAgent query strips the agent-type clause out of the WHERE string — the
String.replace of the exactly appended fragment — so it filters by period
only. -/
def getStats (st : Store) (q : StatsQuery) (nowDay : Nat) : StatsResult :=
  let eff := st.links.filter (effectiveFilter q nowDay)
  let periodOnly := st.links.filter (inPeriod (periodFilterOf q.period) nowDay)
  { overview := mkOverview eff
    byAgent := orderByTier (byAgentRows periodOnly)
    recentActivity := ((sortByCreatedDesc eff).take 50).map projRecent
    period := q.period.getD "today" }

/-! ## Auxiliary predicates and spec-side definitions used by the claims -/

/-- What the webhook does on the success path for an extracted contact id,
stated over the embedding: the attributed link is a clicked link of the
contact with maximal clicked_at, the inserted Conversion row carries its
tracking code (null when the contact has no clicked link), and the attributed
link has its converted flag and timestamp set. -/
def AttributionHolds (st : Store) (c : String) (now : Nat) (b : WebhookBody) : Prop :=
  (clickedLinksOf st c ≠ [] →
    ∃ a, mostRecentClicked (clickedLinksOf st c) = some a ∧
      a ∈ clickedLinksOf st c ∧ a.clicked = true ∧
      (∀ l ∈ clickedLinksOf st c, caKey l.clicked_at ≤ caKey a.clicked_at) ∧
      (webhookAppointment st b now false false).2.conversions = st.conversions ++
        [⟨c, some a.tracking_id, "appointment", now,
          jsonStringifyAppointment b.appointmentId⟩] ∧
      (∀ l ∈ (webhookAppointment st b now false false).2.links,
        l.tracking_id = a.tracking_id →
        l.converted = true ∧ l.converted_at = some now)) ∧
  (clickedLinksOf st c = [] →
    (webhookAppointment st b now false false).2 = { st with
      conversions := st.conversions ++
        [⟨c, none, "appointment", now, jsonStringifyAppointment b.appointmentId⟩] })

/-- Joins serialized key-value pairs with commas. -/
def joinComma : List String → String
  | [] => ""
  | [x] => x
  | x :: y :: xs => x ++ "," ++ joinComma (y :: xs)

/-- Modelled from the spec: the Conversion metadata the spec describes, a
serialized copy of the raw webhook payload plus the appointmentId (src only
serializes the appointmentId; this definition follows the spec wording, for
comparison). -/
def specConversionMetadata (b : WebhookBody) : String :=
  let fields :=
    (match b.contactId with | some v => [("contactId", v)] | none => []) ++
    (match b.contact_id with | some v => [("contact_id", v)] | none => []) ++
    b.extraFields ++
    (match b.appointmentId with | some v => [("appointmentId", v)] | none => [])
  "\x7b" ++
    joinComma (fields.map (fun kv => "\"" ++ kv.1 ++ "\":\"" ++ kv.2 ++ "\"")) ++
    "\x7d"

/-! ## Theorems -/

/-- C1, counterexample. The claim says POST /webhook/appointment always
responds 200; at the concrete input with no contactId in the body the
handler responds 400, and at a valid body with a failing store read it
responds 500 — never the claimed 200. -/
theorem c1_counterexample :
    (webhookAppointment ⟨[], [], []⟩ ⟨none, none, none, []⟩ 0 false false).1.1 = 400 ∧
    (webhookAppointment ⟨[], [], []⟩ ⟨some "abc", none, none, []⟩ 0 true false).1.1 = 500 ∧
    (400 : Nat) ≠ 200 ∧ (500 : Nat) ≠ 200 :=
  ⟨rfl, rfl, by decide, by decide⟩

/-- C1, amended. The webhook responds 400 (with the store untouched) when no
contactId is extracted from the body, 500 (store untouched) when the
attribution read or the conversion insert fails, and 200 only on the
success path. -/
theorem c1_amended_status (st : Store) (b : WebhookBody) (now : Nat)
    (gf inf : Bool) :
    (truthy b.contactId = false →
      webhookAppointment st b now gf inf = ((400, none), st)) ∧
    (truthy b.contactId = true → gf = true →
      webhookAppointment st b now gf inf = ((500, none), st)) ∧
    (truthy b.contactId = true → gf = false → inf = true →
      webhookAppointment st b now gf inf = ((500, none), st)) ∧
    (truthy b.contactId = true → gf = false → inf = false →
      (webhookAppointment st b now gf inf).1.1 = 200) := by
  refine ⟨?_, ?_, ?_, ?_⟩ <;> intros <;> simp_all [webhookAppointment]

/-- C1, witness for the amended theorem at a concrete input. -/
theorem c1_amended_witness :
    truthy (none : Option String) = false ∧
    webhookAppointment ⟨[], [], []⟩ ⟨none, none, none, []⟩ 3 false false =
      ((400, none), ⟨[], [], []⟩) :=
  ⟨by decide,
   (c1_amended_status ⟨[], [], []⟩ ⟨none, none, none, []⟩ 3 false false).1 (by decide)⟩

/-- C2, counterexample. The claim says a webhook body carrying the contact
identifier as contact_id (with contactId absent) is still attributed and
recorded; on a store with a clicked link for contact 42 and exactly that
body the handler responds 400 and records no Conversion row. -/
theorem c2_counterexample :
    (webhookAppointment
        ⟨[⟨"t1", "42", none, "post_call", "https://x.test/a", 0, true, some 10,
            false, none⟩], [], []⟩
        ⟨none, none, some "42", []⟩ 20 false false).1.1 = 400 ∧
    (webhookAppointment
        ⟨[⟨"t1", "42", none, "post_call", "https://x.test/a", 0, true, some 10,
            false, none⟩], [], []⟩
        ⟨none, none, some "42", []⟩ 20 false false).2.conversions = [] :=
  ⟨rfl, rfl⟩

/-- C2, amended. The handler reads only the literal contactId (and
appointmentId) fields of the body: whenever contactId is absent the call is
rejected with 400 and the store is unchanged, whatever contact_id or other
fields the payload carries. -/
theorem c2_amended (st : Store) (now : Nat) (appt cid2 : Option String)
    (fs : List (String × String)) (gf inf : Bool) :
    webhookAppointment st ⟨none, appt, cid2, fs⟩ now gf inf = ((400, none), st) :=
  rfl

/-- C5. GET /t/:trackingId on a tracking id absent from the links table
responds 404 with plain-text Link not found and leaves the store unchanged. -/
theorem c5_unknown_not_found (st : Store) (t : String) (ip ua : Option String)
    (now : Nat) (h : st.links.find? (fun l => l.tracking_id == t) = none) :
    handleClick st t ip ua now = ((404, some "Link not found"), st) := by
  unfold handleClick
  rw [h]

/-- C5, witness at a concrete input. -/
theorem c5_witness :
    (⟨[], [], []⟩ : Store).links.find? (fun l => l.tracking_id == "zzz") = none ∧
    handleClick ⟨[], [], []⟩ "zzz" none none 7 = ((404, some "Link not found"), ⟨[], [], []⟩) :=
  ⟨rfl, c5_unknown_not_found ⟨[], [], []⟩ "zzz" none none 7 rfl⟩

/-- C6. Registration with contactId, agentType or originalUrl missing fails
with 400 and writes no Link row; with all three present (and the insert
succeeding) exactly one Link row is appended, initialized with clicked and
converted false, and the response carries the tracking code and the tracked
URL built from scheme and host. -/
theorem c6_register (st : Store) (b : RegisterBody) (uuid proto host : String)
    (now : Nat) (inf : Bool) :
    ((truthy b.contactId = false ∨ truthy b.agentType = false ∨
        truthy b.originalUrl = false) →
      registerLink st b uuid proto host now inf = ((400, none), st)) ∧
    (truthy b.contactId = true → truthy b.agentType = true →
      truthy b.originalUrl = true → inf = false →
      ∃ link resp,
        registerLink st b uuid proto host now inf =
          ((200, some resp), { st with links := st.links ++ [link] }) ∧
        link.clicked = false ∧ link.converted = false ∧
        link.tracking_id = genTrackingId uuid ∧
        resp.trackingId = genTrackingId uuid ∧
        resp.trackedUrl = proto ++ "://" ++ host ++ "/t/" ++ genTrackingId uuid) := by
  constructor
  · intro h
    unfold registerLink
    rcases h with h | h | h <;> simp [h]
  · intro h1 h2 h3 h4
    subst h4
    refine ⟨⟨genTrackingId uuid, b.contactId.getD "", b.contactEmail,
        b.agentType.getD "", b.originalUrl.getD "", now, false, none, false, none⟩,
      ⟨true, genTrackingId uuid, proto ++ "://" ++ host ++ "/t/" ++ genTrackingId uuid,
        b.originalUrl.getD ""⟩, ?_, rfl, rfl, rfl, rfl, rfl⟩
    unfold registerLink
    simp [h1, h2, h3]

/-- C6, witness at a concrete input. -/
theorem c6_witness :
    truthy (some "42") = true ∧ truthy (some "post_call") = true ∧
    truthy (some "https://x.test/a") = true ∧
    (∃ link resp,
      registerLink ⟨[], [], []⟩
          ⟨some "42", none, some "post_call", some "https://x.test/a"⟩
          "123e4567-e89b-12d3-a456-426614174000" "https" "x.test" 0 false =
        ((200, some resp), { (⟨[], [], []⟩ : Store) with links := [] ++ [link] }) ∧
      link.clicked = false ∧ link.converted = false ∧
      link.tracking_id = genTrackingId "123e4567-e89b-12d3-a456-426614174000" ∧
      resp.trackingId = genTrackingId "123e4567-e89b-12d3-a456-426614174000" ∧
      resp.trackedUrl = "https" ++ "://" ++ "x.test" ++ "/t/" ++
        genTrackingId "123e4567-e89b-12d3-a456-426614174000") :=
  ⟨by decide, by decide, by decide,
   (c6_register ⟨[], [], []⟩
      ⟨some "42", none, some "post_call", some "https://x.test/a"⟩
      "123e4567-e89b-12d3-a456-426614174000" "https" "x.test" 0 false).2
     (by decide) (by decide) (by decide) rfl⟩

/-- The generated tracking code has exactly 8 characters whenever the uuid
has at least 8 (a v4 uuid string has 36). -/
theorem genTrackingId_length (uuid : String) (h : 8 ≤ uuid.length) :
    (genTrackingId uuid).length = 8 := by
  unfold genTrackingId
  have : uuid.length = uuid.data.length := rfl
  simp only [String.length, List.length_take]
  omega

/-- C9. Every successful register call returns a trackingId of length 8. -/
theorem c9_tracking_len (st : Store) (b : RegisterBody) (uuid proto host : String)
    (now : Nat) (h8 : 8 ≤ uuid.length)
    (h1 : truthy b.contactId = true) (h2 : truthy b.agentType = true)
    (h3 : truthy b.originalUrl = true) :
    ∃ resp, (registerLink st b uuid proto host now false).1.2 = some resp ∧
      resp.trackingId.length = 8 := by
  unfold registerLink
  simp [h1, h2, h3]
  exact genTrackingId_length uuid h8

/-- C9, witness at a concrete input (a 36-character v4 uuid). -/
theorem c9_witness :
    8 ≤ ("123e4567-e89b-12d3-a456-426614174000" : String).length ∧
    truthy (some "42") = true ∧ truthy (some "post_call") = true ∧
    truthy (some "https://x.test/a") = true ∧
    (∃ resp, (registerLink ⟨[], [], []⟩
        ⟨some "42", none, some "post_call", some "https://x.test/a"⟩
        "123e4567-e89b-12d3-a456-426614174000" "https" "x.test" 0 false).1.2 =
          some resp ∧
      resp.trackingId.length = 8) :=
  ⟨by decide, by decide, by decide, by decide,
   c9_tracking_len ⟨[], [], []⟩
     ⟨some "42", none, some "post_call", some "https://x.test/a"⟩
     "123e4567-e89b-12d3-a456-426614174000" "https" "x.test" 0
     (by decide) (by decide) (by decide) (by decide)⟩

/-- C10. Omitting the period query parameter computes the statistics for
period today (the destructuring default), identically to an explicit
period=today, and differently from the match-all fallback that a present but
unrecognized period value selects: a link created on an earlier day is
excluded when period is omitted but included under an unrecognized value. -/
theorem c10_period_default :
    (∀ (st : Store) (a : Option String) (now : Nat),
      getStats st ⟨none, a⟩ now = getStats st ⟨some "today", a⟩ now) ∧
    (getStats ⟨[⟨"t1", "c", none, "post_call", "u", 0, false, none, false, none⟩],
        [], []⟩ ⟨none, none⟩ 1).overview.total_links = 0 ∧
    (getStats ⟨[⟨"t1", "c", none, "post_call", "u", 0, false, none, false, none⟩],
        [], []⟩ ⟨some "zzz", none⟩ 1).overview.total_links = 1 :=
  ⟨fun _ _ _ => rfl, rfl, rfl⟩

/-- find? commutes with a map that does not change the predicate. -/
theorem find?_map_pred_pres (f : Link → Link) (p : Link → Bool)
    (hf : ∀ l, p (f l) = p l) (ls : List Link) :
    (ls.map f).find? p = (ls.find? p).map f := by
  induction ls with
  | nil => rfl
  | cons x xs ih =>
    by_cases h : p x = true
    · simp [List.find?_cons, hf x, h]
    · simp only [Bool.not_eq_true] at h
      simp [List.find?_cons, hf x, h, ih]

/-- C4. Visiting a registered, not yet clicked tracking code exactly twice
appends exactly two ClickEvent rows, one per visit; after the second visit
every links row with that code has clicked = true and clicked_at equal to
the timestamp of the first visit — the second visit does not change it. -/
theorem c4_two_visits (st : Store) (t : String) (l : Link)
    (ip1 ua1 ip2 ua2 : Option String) (t1 t2 : Nat)
    (hfind : st.links.find? (fun x => x.tracking_id == t) = some l)
    (hcl : l.clicked = false) :
    ((handleClick (handleClick st t ip1 ua1 t1).2 t ip2 ua2 t2).2.click_events =
      st.click_events ++ [⟨t, t1, ip1, ua1⟩, ⟨t, t2, ip2, ua2⟩]) ∧
    ∀ l2 ∈ (handleClick (handleClick st t ip1 ua1 t1).2 t ip2 ua2 t2).2.links,
      l2.tracking_id = t → l2.clicked = true ∧ l2.clicked_at = some t1 := by
  have hp : (l.tracking_id == t) = true := by
    have h := List.find?_some hfind
    simpa using h
  set upd : Link → Link := fun x =>
    if x.tracking_id == t then { x with clicked := true, clicked_at := some t1 }
    else x with hupd
  have hp2 : l.tracking_id = t := by simpa using hp
  have hpres : ∀ x, ((upd x).tracking_id == t) = (x.tracking_id == t) := by
    intro x
    by_cases h : x.tracking_id = t <;> simp [hupd, h]
  have h1 : (handleClick st t ip1 ua1 t1).2 =
      { st with links := st.links.map upd,
                click_events := st.click_events ++ [⟨t, t1, ip1, ua1⟩] } := by
    unfold handleClick
    rw [hfind]
    simp [hcl, hupd]
  have hfind2 : (st.links.map upd).find? (fun x => x.tracking_id == t) =
      some (upd l) := by
    rw [find?_map_pred_pres upd _ hpres, hfind]
    rfl
  have hul : upd l = { l with clicked := true, clicked_at := some t1 } := by
    simp [hupd, hp2]
  have h2 : (handleClick (handleClick st t ip1 ua1 t1).2 t ip2 ua2 t2).2 =
      { st with links := st.links.map upd,
                click_events := st.click_events ++ [⟨t, t1, ip1, ua1⟩]
                  ++ [⟨t, t2, ip2, ua2⟩] } := by
    rw [h1]
    unfold handleClick
    simp only
    rw [hfind2, hul]
    simp
  constructor
  · rw [h2]
    simp
  · intro l2 hl2 hl2t
    rw [h2] at hl2
    simp only at hl2
    rcases List.mem_map.mp hl2 with ⟨x, _, hx⟩
    have hxt : (x.tracking_id == t) = true := by
      have := hpres x
      rw [hx, hl2t] at this
      simpa using this.symm
    rw [← hx, hupd]
    simp [hxt]

/-- C4, witness at a concrete input: a fresh link visited at instants 5 and 9. -/
theorem c4_witness :
    ((⟨[⟨"t1", "42", none, "post_call", "https://x.test/a", 0, false, none,
        false, none⟩], [], []⟩ : Store).links.find?
      (fun x => x.tracking_id == "t1") =
      some ⟨"t1", "42", none, "post_call", "https://x.test/a", 0, false, none,
        false, none⟩) ∧
    (⟨"t1", "42", none, "post_call", "https://x.test/a", 0, false, none,
        false, none⟩ : Link).clicked = false ∧
    (((handleClick (handleClick
        ⟨[⟨"t1", "42", none, "post_call", "https://x.test/a", 0, false, none,
            false, none⟩], [], []⟩ "t1" (some "ip1") none 5).2
        "t1" (some "ip2") none 9).2.click_events =
      [] ++ [⟨"t1", 5, some "ip1", none⟩, ⟨"t1", 9, some "ip2", none⟩]) ∧
     ∀ l2 ∈ (handleClick (handleClick
        ⟨[⟨"t1", "42", none, "post_call", "https://x.test/a", 0, false, none,
            false, none⟩], [], []⟩ "t1" (some "ip1") none 5).2
        "t1" (some "ip2") none 9).2.links,
      l2.tracking_id = "t1" → l2.clicked = true ∧ l2.clicked_at = some 5) :=
  ⟨rfl, rfl,
   c4_two_visits
     ⟨[⟨"t1", "42", none, "post_call", "https://x.test/a", 0, false, none,
         false, none⟩], [], []⟩ "t1"
     ⟨"t1", "42", none, "post_call", "https://x.test/a", 0, false, none,
       false, none⟩
     (some "ip1") none (some "ip2") none 5 9 rfl rfl⟩

/-- The row chosen for ORDER BY clicked_at DESC LIMIT 1 is one of the rows. -/
theorem foldl_betterClick_mem (x : Link) (xs : List Link) :
    xs.foldl betterClick x ∈ x :: xs := by
  induction xs generalizing x with
  | nil => simp
  | cons y ys ih =>
    have h := ih (betterClick x y)
    have hxy : betterClick x y = x ∨ betterClick x y = y := by
      unfold betterClick
      split
      · exact Or.inr rfl
      · exact Or.inl rfl
    simp only [List.foldl_cons]
    rcases List.mem_cons.mp h with h1 | h1
    · rcases hxy with h2 | h2 <;> rw [h1, h2] <;> simp
    · simp [List.mem_cons.mpr (Or.inr (List.mem_cons.mpr (Or.inr h1)))]

/-- The row chosen for ORDER BY clicked_at DESC LIMIT 1 has a clicked_at at
least as late as every row (NULL sorting below everything). -/
theorem foldl_betterClick_le (x : Link) (xs : List Link) :
    ∀ l ∈ x :: xs, caKey l.clicked_at ≤ caKey (xs.foldl betterClick x).clicked_at := by
  induction xs generalizing x with
  | nil =>
    intro l hl
    simp at hl
    subst hl
    exact le_refl _
  | cons y ys ih =>
    intro l hl
    have hbx : caKey x.clicked_at ≤ caKey (betterClick x y).clicked_at := by
      unfold betterClick
      split
      · omega
      · exact le_refl _
    have hby : caKey y.clicked_at ≤ caKey (betterClick x y).clicked_at := by
      unfold betterClick
      split
      · exact le_refl _
      · omega
    have hacc : caKey (betterClick x y).clicked_at ≤
        caKey (ys.foldl betterClick (betterClick x y)).clicked_at :=
      ih (betterClick x y) (betterClick x y) (List.mem_cons_self _ _)
    simp only [List.foldl_cons]
    rcases List.mem_cons.mp hl with h1 | h1
    · subst h1
      exact le_trans hbx hacc
    · rcases List.mem_cons.mp h1 with h2 | h2
      · subst h2
        exact le_trans hby hacc
      · exact ih (betterClick x y) l (List.mem_cons.mpr (Or.inr h2))

/-- C3. For a webhook call whose extracted contactId has at least one
clicked link, the attributed link is a clicked link of that contact with
the latest clicked_at (never an unclicked one), the inserted Conversion row
carries its tracking code, and every links row with that code gets
converted = true and converted_at stamped; with no clicked link, a
Conversion row with a null tracking code is still inserted. -/
theorem c3_attribution (st : Store) (c : String) (now : Nat) (b : WebhookBody)
    (hc : b.contactId = some c) (hne : c ≠ "") :
    AttributionHolds st c now b := by
  have hbne : (c != "") = true := by simpa using hne
  constructor
  · intro hne2
    obtain ⟨x, xs, hx⟩ : ∃ x xs, clickedLinksOf st c = x :: xs := by
      cases h : clickedLinksOf st c with
      | nil => exact absurd h hne2
      | cons x xs => exact ⟨x, xs, rfl⟩
    have hmr : mostRecentClicked (clickedLinksOf st c) =
        some (xs.foldl betterClick x) := by
      rw [hx]
      rfl
    have hat : attributedTracking st c = some (xs.foldl betterClick x).tracking_id := by
      unfold attributedTracking
      rw [hmr]
      rfl
    have hmem : xs.foldl betterClick x ∈ clickedLinksOf st c := by
      rw [hx]
      exact foldl_betterClick_mem x xs
    have hclicked : (xs.foldl betterClick x).clicked = true := by
      have h := List.of_mem_filter hmem
      simp only [Bool.and_eq_true] at h
      exact h.2
    have hmax : ∀ l ∈ clickedLinksOf st c,
        caKey l.clicked_at ≤ caKey (xs.foldl betterClick x).clicked_at := by
      rw [hx]
      exact foldl_betterClick_le x xs
    have hres : (webhookAppointment st b now false false).2 =
        { st with
          links := st.links.map (fun l =>
            if l.tracking_id == (xs.foldl betterClick x).tracking_id then
              { l with converted := true, converted_at := some now }
            else l),
          conversions := st.conversions ++
            [⟨c, some (xs.foldl betterClick x).tracking_id, "appointment", now,
              jsonStringifyAppointment b.appointmentId⟩] } := by
      unfold webhookAppointment
      rw [hc]
      simp [truthy, hbne, hat]
    refine ⟨xs.foldl betterClick x, hmr, hmem, hclicked, hmax, ?_, ?_⟩
    · rw [hres]
    · intro l hl hlt
      rw [hres] at hl
      simp only at hl
      rcases List.mem_map.mp hl with ⟨x0, _, hx0⟩
      by_cases hcase : x0.tracking_id = (xs.foldl betterClick x).tracking_id
      · rw [← hx0]
        simp [hcase]
      · rw [← hx0] at hlt
        simp [hcase] at hlt
  · intro h0
    have hat : attributedTracking st c = none := by
      unfold attributedTracking mostRecentClicked
      rw [h0]
      rfl
    unfold webhookAppointment
    rw [hc]
    simp [truthy, hbne, hat]

/-- C3, witness at a concrete input: contact 42 has two clicked links, the
later one (clicked_at 30) attributed. -/
theorem c3_witness :
    (⟨some "42", some "a1", none, []⟩ : WebhookBody).contactId = some "42" ∧
    ("42" : String) ≠ "" ∧
    AttributionHolds
      ⟨[⟨"t1", "42", none, "post_call", "u1", 0, true, some 10, false, none⟩,
        ⟨"t2", "42", none, "post_call", "u2", 1, true, some 30, false, none⟩],
       [], []⟩ "42" 50 ⟨some "42", some "a1", none, []⟩ :=
  ⟨rfl, by decide,
   c3_attribution
     ⟨[⟨"t1", "42", none, "post_call", "u1", 0, true, some 10, false, none⟩,
       ⟨"t2", "42", none, "post_call", "u2", 1, true, some 30, false, none⟩],
      [], []⟩ "42" 50 ⟨some "42", some "a1", none, []⟩ rfl (by decide)⟩

/-- C7, counterexample. The claim says the Conversion metadata is a
serialized copy of the raw payload plus the appointmentId, not merely the
appointmentId alone; at a concrete payload carrying an extra field foo the
recorded metadata is exactly the serialized appointmentId object, which
differs from the serialization of the payload the spec describes. -/
theorem c7_counterexample :
    (webhookAppointment ⟨[], [], []⟩
        ⟨some "c7", some "a1", none, [("foo", "bar")]⟩ 0 false false).2.conversions =
      [⟨"c7", none, "appointment", 0, "\x7b\"appointmentId\":\"a1\"\x7d"⟩] ∧
    specConversionMetadata ⟨some "c7", some "a1", none, [("foo", "bar")]⟩ =
      "\x7b\"contactId\":\"c7\",\"foo\":\"bar\",\"appointmentId\":\"a1\"\x7d" ∧
    ("\x7b\"appointmentId\":\"a1\"\x7d" : String) ≠
      "\x7b\"contactId\":\"c7\",\"foo\":\"bar\",\"appointmentId\":\"a1\"\x7d" :=
  ⟨rfl, rfl, by decide⟩

/-- C7, amended. Every recordConversion call that extracts a contactId
inserts one Conversion row whose metadata is the serialized object holding
only the appointmentId; the rest of the raw payload is not serialized. -/
theorem c7_amended (st : Store) (b : WebhookBody) (c : String) (now : Nat)
    (hc : b.contactId = some c) (hne : c ≠ "") :
    (webhookAppointment st b now false false).2.conversions =
      st.conversions ++ [⟨c, attributedTracking st c, "appointment", now,
        jsonStringifyAppointment b.appointmentId⟩] := by
  have hbne : (c != "") = true := by simpa using hne
  unfold webhookAppointment
  rw [hc]
  cases hat : attributedTracking st c with
  | none => simp [truthy, hbne, hat]
  | some t => simp [truthy, hbne, hat]

/-- C7, witness at a concrete input. -/
theorem c7_witness :
    (⟨some "55", some "a9", none, [("k", "v")]⟩ : WebhookBody).contactId =
      some "55" ∧
    ("55" : String) ≠ "" ∧
    (webhookAppointment
        ⟨[⟨"t9", "55", none, "post_call", "u9", 0, true, some 3, false, none⟩],
         [], []⟩
        ⟨some "55", some "a9", none, [("k", "v")]⟩ 7 false false).2.conversions =
      (⟨[⟨"t9", "55", none, "post_call", "u9", 0, true, some 3, false, none⟩],
         [], []⟩ : Store).conversions ++
        [⟨"55",
          attributedTracking
            ⟨[⟨"t9", "55", none, "post_call", "u9", 0, true, some 3, false, none⟩],
             [], []⟩ "55",
          "appointment", 7,
          jsonStringifyAppointment
            (⟨some "55", some "a9", none, [("k", "v")]⟩ : WebhookBody).appointmentId⟩] :=
  ⟨rfl, by decide,
   c7_amended
     ⟨[⟨"t9", "55", none, "post_call", "u9", 0, true, some 3, false, none⟩],
      [], []⟩
     ⟨some "55", some "a9", none, [("k", "v")]⟩ "55" 7 rfl (by decide)⟩

/-- The ORDER BY CASE takes one of the three tier values. -/
theorem tierOf_cases (t : String) : tierOf t = 1 ∨ tierOf t = 2 ∨ tierOf t = 3 := by
  unfold tierOf
  by_cases h1 : likeSupportPct t = true
  · rw [if_pos h1]
    exact Or.inl rfl
  · by_cases h2 : t = "post_call"
    · rw [if_neg h1, if_pos h2]
      exact Or.inr (Or.inl rfl)
    · rw [if_neg h1, if_neg h2]
      exact Or.inr (Or.inr rfl)

/-- Bucketing by tier loses no row. -/
theorem mem_orderByTier {r : AgentRow} {rs : List AgentRow} (h : r ∈ rs) :
    r ∈ orderByTier rs := by
  unfold orderByTier
  rcases tierOf_cases r.agent_type with h1 | h1 | h1 <;>
    simp [List.mem_append, List.mem_filter, h, h1]

/-- A list all of whose pairs compare is pairwise ordered by tier. -/
theorem pairwise_of_all_tier (l : List AgentRow)
    (h : ∀ a ∈ l, ∀ b ∈ l, tierOf a.agent_type ≤ tierOf b.agent_type) :
    l.Pairwise (fun a b => tierOf a.agent_type ≤ tierOf b.agent_type) := by
  induction l with
  | nil => exact List.Pairwise.nil
  | cons x xs ih =>
    refine List.Pairwise.cons ?_ (ih ?_)
    · intro b hb
      exact h x (List.mem_cons_self _ _) b (List.mem_cons.mpr (Or.inr hb))
    · intro a ha b hb
      exact h a (List.mem_cons.mpr (Or.inr ha)) b (List.mem_cons.mpr (Or.inr hb))

/-- The tier buckets concatenate into a list ordered by tier. -/
theorem pairwise_orderByTier (rs : List AgentRow) :
    (orderByTier rs).Pairwise (fun a b => tierOf a.agent_type ≤ tierOf b.agent_type) := by
  have hmem : ∀ k, ∀ r ∈ rs.filter (fun r => tierOf r.agent_type == k),
      tierOf r.agent_type = k := by
    intro k r hr
    simpa using (List.mem_filter.mp hr).2
  unfold orderByTier
  simp only [List.pairwise_append]
  refine ⟨⟨?_, ?_, ?_⟩, ?_, ?_⟩
  · exact pairwise_of_all_tier _ (fun a ha b hb => by
      rw [hmem 1 a ha, hmem 1 b hb])
  · exact pairwise_of_all_tier _ (fun a ha b hb => by
      rw [hmem 2 a ha, hmem 2 b hb])
  · intro a ha b hb
    rw [hmem 1 a ha, hmem 2 b hb]
    omega
  · exact pairwise_of_all_tier _ (fun a ha b hb => by
      rw [hmem 3 a ha, hmem 3 b hb])
  · intro a ha b hb
    rcases List.mem_append.mp ha with ha1 | ha2
    · rw [hmem 1 a ha1, hmem 3 b hb]
      omega
    · rw [hmem 2 a ha2, hmem 3 b hb]
      omega

/-- C8, counterexample. The claim says agent types prefixed support_ sort
first, post_call second, all others last; the SQL pattern is LIKE
"support_%", whose underscore is a single-character wildcard, so the agent
type supportX — not prefixed support_, hence one of the "other" types that
the claim puts after post_call — sorts into the first tier, ahead of
post_call. -/
theorem c8_counterexample :
    ((getStats
        ⟨[⟨"t1", "c1", none, "supportX", "u", 0, false, none, false, none⟩,
          ⟨"t2", "c2", none, "post_call", "u", 0, false, none, false, none⟩],
         [], []⟩
        ⟨some "alltime", none⟩ 0).byAgent.map (fun r => r.agent_type)) =
      ["supportX", "post_call"] ∧
    "supportX".data.take ("support_".data.length) ≠ "support_".data ∧
    ("supportX" : String) ≠ "post_call" :=
  ⟨rfl, by decide, by decide⟩

/-- C8, amended. The byAgent view is computed over the period filter with
the agent-type filter removed (every agent type of the period appears even
when the overview is scoped to one type), and its rows are ordered with
agent types matching the SQL pattern support_% first (underscore a
single-character wildcard: support plus at least one further character,
ASCII-case-insensitively — this includes every type literally prefixed
support_), the literal post_call second, and all other types last. -/
theorem c8_amended :
    (∀ (st : Store) (p a : Option String) (now : Nat),
      (getStats st ⟨p, a⟩ now).byAgent = (getStats st ⟨p, none⟩ now).byAgent) ∧
    (∀ (st : Store) (q : StatsQuery) (now : Nat),
      ((getStats st q now).byAgent).Pairwise
        (fun r s => tierOf r.agent_type ≤ tierOf s.agent_type)) ∧
    (∀ (st : Store) (q : StatsQuery) (now : Nat) (l : Link),
      l ∈ st.links → inPeriod (periodFilterOf q.period) now l = true →
      ∃ r ∈ (getStats st q now).byAgent, r.agent_type = l.agent_type) := by
  refine ⟨fun st p a now => rfl, fun st q now => pairwise_orderByTier _, ?_⟩
  intro st q now l hl hper
  have hl2 : l ∈ st.links.filter (inPeriod (periodFilterOf q.period) now) :=
    List.mem_filter.mpr ⟨hl, hper⟩
  have ht : l.agent_type ∈
      ((st.links.filter (inPeriod (periodFilterOf q.period) now)).map
        (fun l => l.agent_type)).dedup :=
    List.mem_dedup.mpr (List.mem_map_of_mem _ hl2)
  exact ⟨mkAgentRow l.agent_type
      (st.links.filter (inPeriod (periodFilterOf q.period) now)),
    mem_orderByTier (List.mem_map_of_mem _ ht), rfl⟩

/-- C8, witness for the coverage conjunct at a concrete input: the overview
is scoped to agentType post_call, yet the beta row appears in byAgent. -/
theorem c8_witness :
    (⟨"tw", "cw", none, "beta", "u", 86400, false, none, false, none⟩ : Link) ∈
      (⟨[⟨"tw", "cw", none, "beta", "u", 86400, false, none, false, none⟩],
        [], []⟩ : Store).links ∧
    inPeriod (periodFilterOf (some "today")) 1
      ⟨"tw", "cw", none, "beta", "u", 86400, false, none, false, none⟩ = true ∧
    ∃ r ∈ (getStats
        ⟨[⟨"tw", "cw", none, "beta", "u", 86400, false, none, false, none⟩],
         [], []⟩
        ⟨some "today", some "post_call"⟩ 1).byAgent,
      r.agent_type = "beta" :=
  ⟨by decide, by decide,
   c8_amended.2.2
     ⟨[⟨"tw", "cw", none, "beta", "u", 86400, false, none, false, none⟩],
      [], []⟩
     ⟨some "today", some "post_call"⟩ 1
     ⟨"tw", "cw", none, "beta", "u", 86400, false, none, false, none⟩
     (by decide) (by decide)⟩
